import Mathlib

/-!
Shallow embedding of the `nola-god-level` sales-dashboard repository
(`src/dashboard/app.py`, `src/dashboard/Sales.py`,
`src/dashboard/pages/Stores.py`, `src/dashboard/pages/products.py`).

The repository is a read-only reporting layer: it builds parameterized SQL
aggregation queries over a relational sales database and post-processes the
rows with pandas.  We embed the database as explicit lists of records, embed
each SQL query as a Lean function over those lists (filter = WHERE,
flatMap over filtered matches = JOIN, dedup over a key list = GROUP BY,
a stable insertion sort = ORDER BY / sort_values, take = LIMIT), and embed
the pandas post-processing (merge with the 7 weekday names, fillna, the
percentage-of-group loop) step by step.

Timestamps are modelled as microseconds since the epoch (a natural number):
`DATE()` is division by the number of microseconds per day and Postgres
`EXTRACT(DOW)` (0 = Sunday) is `(day + 4) % 7` since day 0 (1970-01-01)
was a Thursday.  Monetary values are modelled as rationals (the database
columns are exact numerics); counts are naturals; identifiers are integers.
-/

namespace Dashboard

/-- Microseconds per second. -/
def USEC_PER_SEC : Nat := 1000000

/-- Microseconds per day. -/
def USEC_PER_DAY : Nat := 86400000000

/-- `DATE(created_at)`: the calendar-day number of a timestamp. -/
def dateOf (t : Nat) : Nat := t / USEC_PER_DAY

/-- Postgres `EXTRACT(DOW FROM created_at)` (0 = Sunday): day 0 of the epoch
was a Thursday, whose Postgres day-of-week number is 4. -/
def dowOf (t : Nat) : Nat := (dateOf t + 4) % 7

/-- A row of the `sales` table. -/
structure Sale where
  id : Int
  store_id : Int
  channel_id : Int
  created_at : Nat
  total_amount : ℚ
  value_paid : ℚ
  deriving Repr, DecidableEq

/-- A row of the `stores` table. -/
structure Store where
  id : Int
  name : String
  deriving Repr, DecidableEq

/-- A row of the `channels` table. -/
structure Channel where
  id : Int
  name : String
  deriving Repr, DecidableEq

/-- A row of the `payments` table. -/
structure Payment where
  id : Int
  sale_id : Int
  payment_type_id : Int
  value : ℚ
  deriving Repr, DecidableEq

/-- A row of the `payment_types` table. -/
structure PaymentType where
  id : Int
  description : String
  deriving Repr, DecidableEq

/-- A row of the `product_sales` table. -/
structure ProductSale where
  sale_id : Int
  product_id : Int
  quantity : Int
  total_price : ℚ
  deriving Repr, DecidableEq

/-- A row of the `products` table. -/
structure Product where
  id : Int
  name : String
  deriving Repr, DecidableEq

/-- The relational database the dashboard reads. -/
structure DB where
  sales : List Sale
  stores : List Store
  channels : List Channel
  payments : List Payment
  payment_types : List PaymentType
  product_sales : List ProductSale
  products : List Product
  deriving Repr, DecidableEq

/-! ### Date-window normalization (`day_range_for_date`, `start_dt`/`end_dt`)

`app.py` (lines 20–23) builds `(combine(d, time(0,0,0)), combine(d, time(23,59,59)))`.
`Sales.py` (lines 131–133) builds `combine(start_date, time.min)` and
`combine(end_date, time.max)`; `time.max` is `23:59:59.999999`.
`pages/Stores.py` (lines 100–103) builds `combine(start, time(0,0,0))` and
`combine(end, time(23,59,59))`.  Calendar dates are day numbers. -/

/-- `app.py` `day_range_for_date`: midnight to 23:59:59 of one day `d`,
as timestamps in microseconds. -/
def day_range_for_date (d : Nat) : Nat × Nat :=
  (d * USEC_PER_DAY, d * USEC_PER_DAY + 86399 * USEC_PER_SEC)

/-- `Sales.py` `start_dt`/`end_dt`: `time.min` of the start date up to
`time.max` (`23:59:59.999999`) of the end date. -/
def salesWindow (d1 d2 : Nat) : Nat × Nat :=
  (d1 * USEC_PER_DAY, d2 * USEC_PER_DAY + (USEC_PER_DAY - 1))

/-- `pages/Stores.py` (also `pages/products.py`) query params: `time(0,0,0)`
of the start date up to `time(23,59,59)` of the end date. -/
def storesWindow (d1 d2 : Nat) : Nat × Nat :=
  (d1 * USEC_PER_DAY, d2 * USEC_PER_DAY + 86399 * USEC_PER_SEC)

/-- SQL `created_at BETWEEN w.1 AND w.2` (inclusive on both ends). -/
def inWindow (t : Nat) (w : Nat × Nat) : Prop := w.1 ≤ t ∧ t ≤ w.2

instance (t : Nat) (w : Nat × Nat) : Decidable (inWindow t w) := by
  unfold inWindow; infer_instance

/-! ### The shared WHERE clause

All aggregation queries filter sales by
`created_at BETWEEN :start AND :end` plus the conditionally appended
`store_id = ANY(:stores_ids)` / `channel_id = ANY(:channels_ids)` fragments.
The fragments are only appended when the Python id list is truthy
(`if stores_ids:`), so an empty list means "no filter". -/

/-- The WHERE predicate of the dashboard queries on a sales row:
date window plus the conditionally appended store/channel membership
predicates (an empty id list appends no predicate). -/
def saleMatches (s e : Nat) (stores_ids channels_ids : List Int) (r : Sale) :
    Prop :=
  s ≤ r.created_at ∧ r.created_at ≤ e ∧
    (stores_ids = [] ∨ r.store_id ∈ stores_ids) ∧
    (channels_ids = [] ∨ r.channel_id ∈ channels_ids)

instance (s e : Nat) (st ch : List Int) (r : Sale) :
    Decidable (saleMatches s e st ch r) := by
  unfold saleMatches; infer_instance

/-- The sales rows selected by the shared WHERE clause. -/
def filteredSales (db : DB) (s e : Nat) (st ch : List Int) : List Sale :=
  db.sales.filter (fun r => decide (saleMatches s e st ch r))

/-! ### `sales_dashboard_data`, scalar part (`q_scalar`)

`app.py` lines 174–181 / `Sales.py` lines 197–204:
`SELECT COALESCE(SUM(total_amount),0) AS total_sales, COUNT(*) AS total_orders
FROM sales WHERE created_at BETWEEN :start AND :end {scalar_filters_sql}`,
followed by `avg_ticket = total_sales / total_orders if total_orders > 0 else 0`
(lines 204–206 / 228–230).  The scalar filters are the same membership
predicates, unqualified; the query reads the `sales` table alone. -/

/-- The scalar summary `(total_sales, total_orders, avg_ticket)` of
`sales_dashboard_data`. -/
def q_scalar (db : DB) (s e : Nat) (st ch : List Int) : ℚ × Nat × ℚ :=
  let rows := filteredSales db s e st ch
  let total_sales : ℚ := (rows.map (fun r => r.total_amount)).sum
  let total_orders : Nat := rows.length
  let avg_ticket : ℚ :=
    if total_orders > 0 then total_sales / total_orders else 0
  (total_sales, total_orders, avg_ticket)

/-! ### Selection parsing (`stores_ids` / `channels_ids`)

`app.py` lines 103–114 / `Sales.py` lines 118–129:
`stores_ids = [int(s.split(" - ")[0]) for s in store_choices]`.
A malformed entry (leading field not an integer) makes `int` raise
`ValueError`; the comprehension propagates it.  We model that Python
exception as the spec's `FormatError`. -/

/-- The error raised by `int()` on a non-numeric string (`ValueError` in the
source; the spec calls it `FormatError`). -/
inductive FormatError where
  | valueError (input : List Char)
  deriving Repr, DecidableEq

/-- `s.split(" - ")[0]`: the characters before the first occurrence of the
separator `" - "` (the whole string when the separator is absent). -/
def splitHead : List Char → List Char
  | ' ' :: '-' :: ' ' :: _ => []
  | c :: rest => c :: splitHead rest
  | [] => []

/-- The value of an all-digit run, Python-style (`none` on a non-digit). -/
def digitsVal (acc : Nat) : List Char → Option Nat
  | [] => some acc
  | c :: rest =>
    if c.isDigit then digitsVal (acc * 10 + (c.toNat - '0'.toNat)) rest
    else none

/-- Python `int(s)` on a character list: an optional sign followed by a
nonempty digit run parses to its value, anything else raises. -/
def pyInt : List Char → Option Int
  | [] => none
  | '-' :: rest =>
    match rest with
    | [] => none
    | _ => (digitsVal 0 rest).map fun n => -(n : Int)
  | '+' :: rest =>
    match rest with
    | [] => none
    | _ => (digitsVal 0 rest).map fun n => (n : Int)
  | cs => (digitsVal 0 cs).map fun n => (n : Int)

/-- One list-comprehension entry: `int(s.split(" - ")[0])`, with `int`'s
`ValueError` carrying the unparseable field. -/
def parseSelection (s : String) : Except FormatError Int :=
  match pyInt (splitHead s.data) with
  | some n => Except.ok n
  | none => Except.error (FormatError.valueError (splitHead s.data))

/-- The full comprehension `[int(s.split(" - ")[0]) for s in choices]`,
propagating the first `ValueError`. -/
def choicesToIds : List String → Except FormatError (List Int)
  | [] => Except.ok []
  | c :: rest =>
    match parseSelection c with
    | Except.error err => Except.error err
    | Except.ok i =>
      match choicesToIds rest with
      | Except.error err => Except.error err
      | Except.ok is => Except.ok (i :: is)

/-! ### Stable sort (SQL `ORDER BY`, pandas `sort_values`)

A stable insertion sort: an element is placed before the first existing
element it compares `le` to, so elements that tie keep their input order.
This is a deterministic refinement of SQL's `ORDER BY` (which fixes only the
ordering key) and of the pandas sorts in the source. -/

/-- Insert `a` before the first element `b` of `l` with `le a b`. -/
def insertLe (le : α → α → Bool) (a : α) : List α → List α
  | [] => [a]
  | b :: l => if le a b then a :: b :: l else b :: insertLe le a l

/-- Stable insertion sort by the boolean relation `le`. -/
def sortBy (le : α → α → Bool) : List α → List α
  | [] => []
  | a :: l => insertLe le a (sortBy le l)

/-! ### `sales_dashboard_data`, grouped part (`q_daily`)

`app.py` lines 157–171 / `Sales.py` lines 180–194:
`SELECT DATE(s.created_at), c.name, st.name, SUM(s.total_amount), COUNT(*)
FROM sales s INNER JOIN channels c ON c.id = s.channel_id
INNER JOIN stores st ON st.id = s.store_id
WHERE s.created_at BETWEEN :start AND :end {filters_sql}
GROUP BY DATE(s.created_at), c.name, st.name ORDER BY date`. -/

/-- One row of the `q_daily` result. -/
structure DailyRow where
  date : Nat
  channel_name : String
  store_name : String
  total : ℚ
  qtde : Nat
  deriving Repr, DecidableEq

/-- The joined row bag of `q_daily` before grouping:
`(date, channel name, store name, total_amount)` per join combination. -/
def q_daily_joined (db : DB) (s e : Nat) (st ch : List Int) :
    List (Nat × String × String × ℚ) :=
  (filteredSales db s e st ch).flatMap fun r =>
    (db.channels.filter fun c => decide (c.id = r.channel_id)).flatMap fun c =>
      (db.stores.filter fun t => decide (t.id = r.store_id)).map fun t =>
        (dateOf r.created_at, c.name, t.name, r.total_amount)

/-- The `GROUP BY DATE(s.created_at), c.name, st.name` key list of
`q_daily`. -/
def q_daily_keys (db : DB) (s e : Nat) (st ch : List Int) :
    List (Nat × String × String) :=
  ((q_daily_joined db s e st ch).map fun x => (x.1, x.2.1, x.2.2.1)).dedup

/-- One aggregated row of `q_daily`. -/
def q_daily_group (db : DB) (s e : Nat) (st ch : List Int)
    (k : Nat × String × String) : DailyRow :=
  let fiber := (q_daily_joined db s e st ch).filter
    fun x => decide ((x.1, x.2.1, x.2.2.1) = k)
  { date := k.1, channel_name := k.2.1, store_name := k.2.2,
    total := (fiber.map fun x => x.2.2.2).sum,
    qtde := fiber.length }

/-- `q_daily`: group the joined rows by (date, channel name, store name),
sum `total_amount`, count rows, order by date ascending. -/
def q_daily (db : DB) (s e : Nat) (st ch : List Int) : List DailyRow :=
  sortBy (fun a b => decide (a.date ≤ b.date))
    ((q_daily_keys db s e st ch).map (q_daily_group db s e st ch))

/-! ### `avg_sales_by_weekday`

`app.py` lines 292–361 / `Sales.py` lines 325–394.  A CTE groups the
filtered sales by `(DATE(created_at), EXTRACT(DOW)::int)` summing a value
column (`value_paid` in `app.py`, `total_amount` in `Sales.py` — the
function below is parameterized by that column); the outer query groups the
daily totals by `dow` computing `AVG`, `SUM`, `COUNT(*)`, `ORDER BY dow`.
Pandas then maps `dow` to an abbreviated weekday name, left-merges the
7-name frame `WEEKDAY_ORDER` against it (zero-filling misses), and sorts by
the Mon-first categorical order. -/

/-- The Monday-first weekday frame (`WEEKDAY_ORDER` in the source). -/
def weekdayFrame : List String :=
  ["Mon", "Tue", "Wed", "Thu", "Fri", "Sat", "Sun"]

/-- `dow_to_name`: Postgres day-of-week number (0 = Sunday) to name. -/
def dow_to_name (d : Nat) : String :=
  match d with
  | 0 => "Sun"
  | 1 => "Mon"
  | 2 => "Tue"
  | 3 => "Wed"
  | 4 => "Thu"
  | 5 => "Fri"
  | 6 => "Sat"
  | _ => "?"

/-- Position of a weekday name in the Mon-first categorical order. -/
def weekdayIndex (w : String) : Nat := weekdayFrame.indexOf w

/-- One row of the final weekday table. -/
structure WeekdayRow where
  weekday : String
  avg_total : ℚ
  sum_total : ℚ
  days_count : Nat
  deriving Repr, DecidableEq

/-- One row of the grouped-by-dow SQL result (with the weekday-name column
pandas adds before the merge). -/
structure DowAgg where
  dow : Nat
  avg_total : ℚ
  sum_total : ℚ
  days_count : Nat
  deriving Repr, DecidableEq

/-- The CTE `daily`: one `(date, dow, SUM(value))` row per calendar day with
matching sales. -/
def weekday_daily (value : Sale → ℚ) (db : DB) (s e : Nat)
    (st ch : List Int) : List (Nat × Nat × ℚ) :=
  let rows := filteredSales db s e st ch
  let keys :=
    (rows.map fun r => (dateOf r.created_at, dowOf r.created_at)).dedup
  keys.map fun k =>
    (k.1, k.2, ((rows.filter fun r =>
        decide ((dateOf r.created_at, dowOf r.created_at) = k)).map
          value).sum)

/-- The `GROUP BY dow` key list of the outer query. -/
def weekday_dows (value : Sale → ℚ) (db : DB) (s e : Nat)
    (st ch : List Int) : List Nat :=
  ((weekday_daily value db s e st ch).map fun x => x.2.1).dedup

/-- One aggregated row of the outer query:
`AVG(total)`, `SUM(total)`, `COUNT(*)` over one day-of-week fiber. -/
def weekday_dow_group (value : Sale → ℚ) (db : DB) (s e : Nat)
    (st ch : List Int) (d : Nat) : DowAgg :=
  let fiber := (weekday_daily value db s e st ch).filter
    fun x => decide (x.2.1 = d)
  { dow := d,
    avg_total := ((fiber.map fun x => x.2.2).sum) / (fiber.length : ℚ),
    sum_total := (fiber.map fun x => x.2.2).sum,
    days_count := fiber.length }

/-- The outer query: group the daily totals by `dow`, ordered by `dow`. -/
def weekday_grouped (value : Sale → ℚ) (db : DB) (s e : Nat)
    (st ch : List Int) : List DowAgg :=
  sortBy (fun a b => decide (a.dow ≤ b.dow))
    ((weekday_dows value db s e st ch).map
      (weekday_dow_group value db s e st ch))

/-- The row the pandas left-merge produces for a weekday name with data. -/
def weekday_merge_row (g : DowAgg) (w : String) : WeekdayRow :=
  { weekday := w, avg_total := g.avg_total, sum_total := g.sum_total,
    days_count := g.days_count }

/-- The pandas left-merge of the Mon-first 7-name frame against the grouped
rows keyed by weekday name, zero-filling the weekdays with no data. -/
def weekday_merged (value : Sale → ℚ) (db : DB) (s e : Nat)
    (st ch : List Int) : List WeekdayRow :=
  weekdayFrame.flatMap fun w =>
    if ((weekday_grouped value db s e st ch).filter
        fun g => decide (dow_to_name g.dow = w)).isEmpty then
      [{ weekday := w, avg_total := 0, sum_total := 0, days_count := 0 }]
    else
      ((weekday_grouped value db s e st ch).filter
        fun g => decide (dow_to_name g.dow = w)).map
          fun g => weekday_merge_row g w

/-- `avg_sales_by_weekday`: the merge above followed by the
`sort_values` on the Mon-first categorical order. -/
def avg_sales_by_weekday (value : Sale → ℚ) (db : DB) (s e : Nat)
    (st ch : List Int) : List WeekdayRow :=
  sortBy (fun a b => decide (weekdayIndex a.weekday ≤ weekdayIndex b.weekday))
    (weekday_merged value db s e st ch)

/-! ### `total_sales_by_payment_method` and the payment-chart loop

`Sales.py` lines 426–469 (query) and 479–536 (module-level chart loop). -/

/-- One row of the payment-method query result. -/
structure PaymentMethodRow where
  channel_name : String
  payment_method : String
  total : ℚ
  count_payments : Nat
  deriving Repr, DecidableEq

/-- The joined row bag of the payment-method query:
`FROM payments p JOIN payment_types pt JOIN sales s JOIN channels ch
WHERE s.created_at BETWEEN :start AND :end {filters}`. -/
def payment_joined (db : DB) (s e : Nat) (st ch : List Int) :
    List (String × String × ℚ) :=
  db.payments.flatMap fun p =>
    (db.payment_types.filter fun pt =>
        decide (pt.id = p.payment_type_id)).flatMap fun pt =>
      (db.sales.filter fun r =>
          decide (r.id = p.sale_id ∧ saleMatches s e st ch r)).flatMap fun r =>
        (db.channels.filter fun c => decide (c.id = r.channel_id)).map fun c =>
          (c.name, pt.description, p.value)

/-- `total_sales_by_payment_method`: group by (channel name, payment-type
description), sum `p.value`, count rows, `ORDER BY ch.name, total DESC`. -/
def total_sales_by_payment_method (db : DB) (s e : Nat) (st ch : List Int) :
    List PaymentMethodRow :=
  let rows := payment_joined db s e st ch
  let keys := (rows.map fun x => (x.1, x.2.1)).dedup
  let grouped := keys.map fun k =>
    let fiber := rows.filter fun x => decide ((x.1, x.2.1) = k)
    { channel_name := k.1, payment_method := k.2,
      total := (fiber.map fun x => x.2.2).sum,
      count_payments := fiber.length : PaymentMethodRow }
  sortBy (fun a b => decide (a.channel_name < b.channel_name ∨
    (a.channel_name = b.channel_name ∧ b.total ≤ a.total))) grouped

/-- A payment-method row with the share column the chart loop adds. -/
structure PctRow where
  row : PaymentMethodRow
  pct : ℚ
  deriving Repr, DecidableEq

/-- `channels_list = sorted(df["channel_name"].unique().tolist())`. -/
def channelsList (rows : List PaymentMethodRow) : List String :=
  sortBy (fun a b => decide (a ≤ b))
    ((rows.map fun r => r.channel_name).dedup)

/-- `subset = df[df["channel_name"] == ch]`. -/
def channelSubset (rows : List PaymentMethodRow) (chname : String) :
    List PaymentMethodRow :=
  rows.filter fun r => decide (r.channel_name = chname)

/-- `total = subset["total"].sum()`. -/
def channelTotal (rows : List PaymentMethodRow) (chname : String) : ℚ :=
  ((channelSubset rows chname).map fun r => r.total).sum

/-- The module-level payment-chart loop of `Sales.py` (lines 489–536): for
each channel name of `channelsList`, take its subset of rows and the
subset's total; when the total is `0`, write a "no sales" placeholder and
`continue`, rendering none of the subset's rows; otherwise give each row
`pct = total / group_total * 100` and render the chart. -/
def renderPaymentCharts (rows : List PaymentMethodRow) :
    List (String × List PctRow) :=
  (channelsList rows).filterMap fun chname =>
    if channelTotal rows chname = 0 then none
    else some (chname, (channelSubset rows chname).map fun r =>
      ⟨r, r.total / channelTotal rows chname * 100⟩)

/-! ### `stores_overview`

`pages/Stores.py` lines 98–139:
`SELECT st.id, st.name, COALESCE(SUM(s.total_amount),0) AS total_sales,
COUNT(s.*) AS total_orders,
COALESCE(AVG(NULLIF(s.total_amount,0)),0) AS avg_ticket
FROM stores st LEFT JOIN sales s ON s.store_id = st.id
AND s.created_at BETWEEN :start AND :end [AND s.channel_id = ANY(...)]
[WHERE st.id = ANY(:stores_ids)]
GROUP BY st.id, st.name ORDER BY total_sales DESC`. -/

/-- One row of the `stores_overview` result. -/
structure StoreRow where
  store_id : Int
  store_name : String
  total_sales : ℚ
  total_orders : Nat
  avg_ticket : ℚ
  deriving Repr, DecidableEq

/-- The sale-side condition of the LEFT JOIN in `stores_overview` (the
channel filter sits in the join condition, not in a WHERE). -/
def storesJoinMatches (sid : Int) (s e : Nat) (ch : List Int) (r : Sale) :
    Prop :=
  r.store_id = sid ∧ s ≤ r.created_at ∧ r.created_at ≤ e ∧
    (ch = [] ∨ r.channel_id ∈ ch)

instance (sid : Int) (s e : Nat) (ch : List Int) (r : Sale) :
    Decidable (storesJoinMatches sid s e ch r) := by
  unfold storesJoinMatches; infer_instance

/-- The sales rows a given store matches through the LEFT JOIN condition. -/
def store_matching_sales (db : DB) (s e : Nat) (cf : List Int) (sid : Int) :
    List Sale :=
  db.sales.filter fun r => decide (storesJoinMatches sid s e cf r)

/-- The LEFT JOIN row bag: every store passing the WHERE, paired with each
matching sale, or with `none` when no sale matches. -/
def stores_leftjoin (db : DB) (s e : Nat) (stores_ids channels_ids : List Int) :
    List (Store × Option Sale) :=
  (db.stores.filter fun t =>
      decide (stores_ids = [] ∨ t.id ∈ stores_ids)).flatMap fun t =>
    if (store_matching_sales db s e channels_ids t.id).isEmpty then [(t, none)]
    else (store_matching_sales db s e channels_ids t.id).map fun r =>
      (t, some r)

/-- The `GROUP BY st.id, st.name` key list of `stores_overview`. -/
def stores_overview_keys (db : DB) (s e : Nat)
    (stores_ids channels_ids : List Int) : List (Int × String) :=
  ((stores_leftjoin db s e stores_ids channels_ids).map
    fun x => (x.1.id, x.1.name)).dedup

/-- The non-null sale sides of one (store id, store name) group of the
LEFT JOIN. -/
def stores_group_sales (db : DB) (s e : Nat)
    (stores_ids channels_ids : List Int) (k : Int × String) : List Sale :=
  ((stores_leftjoin db s e stores_ids channels_ids).filter
    fun x => decide ((x.1.id, x.1.name) = k)).filterMap fun x => x.2

/-- One aggregated row of `stores_overview`: `SUM` and `COUNT(s.*)` see only
the non-null sale sides, and `avg_ticket` averages the
`NULLIF(total_amount, 0)` values (`COALESCE` turns an all-null average
into `0`). -/
def stores_overview_group (db : DB) (s e : Nat)
    (stores_ids channels_ids : List Int) (k : Int × String) : StoreRow :=
  let salesOf := stores_group_sales db s e stores_ids channels_ids k
  let nonzero := salesOf.filter fun r => decide (r.total_amount ≠ 0)
  { store_id := k.1, store_name := k.2,
    total_sales := (salesOf.map fun r => r.total_amount).sum,
    total_orders := salesOf.length,
    avg_ticket := if nonzero.isEmpty then 0
      else ((nonzero.map fun r => r.total_amount).sum) / (nonzero.length : ℚ) }

/-- `stores_overview`: group the LEFT JOIN rows by (store id, store name)
and order by `total_sales` descending. -/
def stores_overview (db : DB) (d1 d2 : Nat)
    (stores_ids channels_ids : List Int) : List StoreRow :=
  let w := storesWindow d1 d2
  sortBy (fun a b => decide (b.total_sales ≤ a.total_sales))
    ((stores_overview_keys db w.1 w.2 stores_ids channels_ids).map
      (stores_overview_group db w.1 w.2 stores_ids channels_ids))

/-! ### `top_products_by_store`

`pages/Stores.py` lines 184–222:
`SELECT p.id, p.name, SUM(ps.quantity) AS total_qty,
SUM(ps.total_price) AS revenue
FROM product_sales ps JOIN products p ON p.id = ps.product_id
JOIN sales s ON s.id = ps.sale_id
WHERE s.created_at BETWEEN :start AND :end {filters}
GROUP BY p.id, p.name ORDER BY total_qty DESC LIMIT :limit`. -/

/-- One row of the `top_products_by_store` result. -/
structure ProductRow where
  product_id : Int
  product_name : String
  total_qty : Int
  revenue : ℚ
  deriving Repr, DecidableEq

/-- The joined row bag of `top_products_by_store`:
`(product id, product name, quantity, line total)` per join combination. -/
def top_products_joined (db : DB) (s e : Nat) (st ch : List Int) :
    List (Int × String × Int × ℚ) :=
  db.product_sales.flatMap fun ps =>
    (db.products.filter fun p => decide (p.id = ps.product_id)).flatMap fun p =>
      (db.sales.filter fun r =>
          decide (r.id = ps.sale_id ∧ saleMatches s e st ch r)).map fun _ =>
        (p.id, p.name, ps.quantity, ps.total_price)

/-- The `GROUP BY p.id, p.name` key list of `top_products_by_store`. -/
def top_products_keys (db : DB) (s e : Nat) (st ch : List Int) :
    List (Int × String) :=
  ((top_products_joined db s e st ch).map fun x => (x.1, x.2.1)).dedup

/-- One aggregated row of `top_products_by_store`. -/
def top_products_group (db : DB) (s e : Nat) (st ch : List Int)
    (k : Int × String) : ProductRow :=
  let fiber := (top_products_joined db s e st ch).filter
    fun x => decide ((x.1, x.2.1) = k)
  { product_id := k.1, product_name := k.2,
    total_qty := (fiber.map fun x => x.2.2.1).sum,
    revenue := (fiber.map fun x => x.2.2.2).sum }

/-- `top_products_by_store`: group by (product id, product name), order by
quantity descending (the query has no further sort key), truncate to
`limit`. -/
def top_products_by_store (db : DB) (d1 d2 : Nat)
    (store_ids channels_ids : List Int) (limit : Nat) : List ProductRow :=
  (sortBy (fun a b => decide (b.total_qty ≤ a.total_qty))
    ((top_products_keys db (storesWindow d1 d2).1 (storesWindow d1 d2).2
        store_ids channels_ids).map
      (top_products_group db (storesWindow d1 d2).1 (storesWindow d1 d2).2
        store_ids channels_ids))).take limit

/-! ### Concrete witness data -/

/-- A small concrete database used by witnesses: one store, two channels,
one sale per day on days 0 and 1, one payment, one product line. -/
def dbW : DB where
  sales := [
    { id := 1, store_id := 1, channel_id := 2, created_at := 1000,
      total_amount := 100, value_paid := 100 },
    { id := 2, store_id := 1, channel_id := 3,
      created_at := USEC_PER_DAY + 5, total_amount := 40, value_paid := 40 }]
  stores := [{ id := 1, name := "A" }]
  channels := [{ id := 2, name := "X" }, { id := 3, name := "Y" }]
  payments := [{ id := 1, sale_id := 1, payment_type_id := 7, value := 60 }]
  payment_types := [{ id := 7, description := "cash" }]
  product_sales := [
    { sale_id := 1, product_id := 4, quantity := 2, total_price := 50 }]
  products := [{ id := 4, name := "P" }]

/-- A database with a zero-amount sale, separating the two avg-ticket
formulas. -/
def dbZ : DB where
  sales := [
    { id := 1, store_id := 1, channel_id := 2, created_at := 1000,
      total_amount := 100, value_paid := 100 },
    { id := 2, store_id := 1, channel_id := 2, created_at := 2000,
      total_amount := 0, value_paid := 0 }]
  stores := [{ id := 1, name := "A" }]
  channels := [{ id := 2, name := "X" }]
  payments := []
  payment_types := []
  product_sales := []
  products := []

/-- A one-row payment table whose only group ("A") totals zero. -/
def rowsZ : List PaymentMethodRow :=
  [{ channel_name := "A", payment_method := "cash", total := 0,
     count_payments := 1 }]

/-- A two-group payment table: group "A" totals zero, group "B" does not. -/
def rowsB : List PaymentMethodRow :=
  [{ channel_name := "A", payment_method := "cash", total := 0,
     count_payments := 1 },
   { channel_name := "B", payment_method := "pix", total := 2,
     count_payments := 1 }]

/-- A database where two products tie on quantity sold; the line items list
the higher product id first. -/
def dbT : DB where
  sales := [
    { id := 1, store_id := 1, channel_id := 2, created_at := 1000,
      total_amount := 10, value_paid := 10 }]
  stores := [{ id := 1, name := "A" }]
  channels := [{ id := 2, name := "X" }]
  payments := []
  payment_types := []
  product_sales := [
    { sale_id := 1, product_id := 5, quantity := 1, total_price := 7 },
    { sale_id := 1, product_id := 3, quantity := 1, total_price := 4 }]
  products := [{ id := 5, name := "P5" }, { id := 3, name := "P3" }]

/-- A database whose one sale paid less (`value_paid = 5`) than its order
total (`total_amount = 10`). -/
def dbV : DB where
  sales := [
    { id := 1, store_id := 1, channel_id := 2, created_at := 1000,
      total_amount := 10, value_paid := 5 }]
  stores := [{ id := 1, name := "A" }]
  channels := [{ id := 2, name := "X" }]
  payments := []
  payment_types := []
  product_sales := []
  products := []

/-! ### Shared facts -/

theorem perm_insertLe (le : α → α → Bool) (a : α) (l : List α) :
    List.Perm (insertLe le a l) (a :: l) := by
  induction l with
  | nil => simp [insertLe]
  | cons b t ih =>
    simp only [insertLe]
    by_cases h : le a b = true
    · simp [h]
    · simp only [h, if_false]
      exact (ih.cons b).trans (List.Perm.swap a b t)

theorem perm_sortBy (le : α → α → Bool) (l : List α) :
    List.Perm (sortBy le l) l := by
  induction l with
  | nil => simp [sortBy]
  | cons a t ih =>
    exact (perm_insertLe le a (sortBy le t)).trans (ih.cons a)

theorem pairwise_insertLe (le : α → α → Bool)
    (htot : ∀ a b, le a b = true ∨ le b a = true)
    (htrans : ∀ a b c, le a b = true → le b c = true → le a c = true)
    (a : α) (l : List α) (hl : l.Pairwise (fun x y => le x y = true)) :
    (insertLe le a l).Pairwise (fun x y => le x y = true) := by
  induction l with
  | nil => simp [insertLe]
  | cons b t ih =>
    rcases hl with _ | ⟨hb, ht⟩
    simp only [insertLe]
    by_cases h : le a b = true
    · rw [if_pos h]
      refine List.Pairwise.cons ?_ (List.Pairwise.cons hb ht)
      intro x hx
      rcases List.mem_cons.mp hx with rfl | hx
      · exact h
      · exact htrans a b x h (hb x hx)
    · rw [if_neg h]
      refine List.Pairwise.cons ?_ (ih ht)
      intro x hx
      have hx' := (perm_insertLe le a t).mem_iff.mp hx
      rcases List.mem_cons.mp hx' with h' | hx'
      · rw [h']
        rcases htot a b with h2 | h2
        · exact absurd h2 h
        · exact h2
      · exact hb x hx'

theorem pairwise_sortBy (le : α → α → Bool)
    (htot : ∀ a b, le a b = true ∨ le b a = true)
    (htrans : ∀ a b c, le a b = true → le b c = true → le a c = true)
    (l : List α) :
    (sortBy le l).Pairwise (fun x y => le x y = true) := by
  induction l with
  | nil => simp [sortBy]
  | cons a t ih => exact pairwise_insertLe le htot htrans a (sortBy le t) ih

/-- Sorting an already-sorted list is the identity (used for the pandas
`sort_values` on the weekday table, whose rows are built in order). -/
theorem sortBy_eq_self_of_pairwise (le : α → α → Bool) (l : List α)
    (hl : l.Pairwise (fun x y => le x y = true)) :
    sortBy le l = l := by
  induction l with
  | nil => rfl
  | cons a t ih =>
    rcases hl with _ | ⟨ha, ht⟩
    simp only [sortBy, ih ht]
    cases t with
    | nil => rfl
    | cons b t' =>
      simp [insertLe, ha b (by simp)]

/-! ### Grouping helpers (SQL `GROUP BY`)

A `GROUP BY` is embedded as: collect the key of every row, deduplicate the
key list keeping first occurrences, and aggregate the fiber of each key.
The lemmas below say that summing an aggregate over the fibers of a
duplicate-free covering key list is summing over all rows. -/

theorem sum_map_add {κ : Type u} (ks : List κ) (f g : κ → ℚ) :
    ((ks.map fun k => f k + g k)).sum = (ks.map f).sum + (ks.map g).sum := by
  induction ks with
  | nil => simp
  | cons k t ih => simp [ih]; ring

theorem sum_ite_of_not_mem {κ : Type u} [DecidableEq κ]
    (ks : List κ) (k0 : κ) (hk : k0 ∉ ks) (c : ℚ) :
    ((ks.map fun k => if k0 = k then c else 0)).sum = 0 := by
  induction ks with
  | nil => simp
  | cons k t ih =>
    have hne : k0 ≠ k := fun h => hk (h ▸ List.mem_cons_self k t)
    have ht : k0 ∉ t := fun h => hk (List.mem_cons_of_mem k h)
    simp [hne, ih ht]

theorem sum_ite_single {κ : Type u} [DecidableEq κ]
    (ks : List κ) (hnd : ks.Nodup) (k0 : κ) (hk : k0 ∈ ks) (c : ℚ) :
    ((ks.map fun k => if k0 = k then c else 0)).sum = c := by
  induction ks with
  | nil => exact absurd hk (List.not_mem_nil k0)
  | cons k t ih =>
    rcases hnd with _ | ⟨hknot, hndt⟩
    rcases List.mem_cons.mp hk with rfl | hk0t
    · have : k0 ∉ t := fun h => (hknot k0 h) rfl
      simp [sum_ite_of_not_mem t k0 this c]
    · have hne : k0 ≠ k := by
        intro h; exact (hknot k0 hk0t) h.symm
      simp [hne, ih hndt hk0t]

/-- Mapping the group key over aggregated groups recovers the key list. -/
theorem map_key_of_groups {κ : Type u} {ρ : Type v} (keys : List κ)
    (mk : κ → ρ) (key : ρ → κ) (h : ∀ k ∈ keys, key (mk k) = k) :
    (keys.map mk).map key = keys := by
  rw [List.map_map]
  exact (List.map_congr_left h).trans (List.map_id _)

/-- Summing a value over the fibers of a duplicate-free key list covering
every row equals summing it over the rows. -/
theorem sum_fibers {α : Type u} {κ : Type v} [DecidableEq κ]
    (rows : List α) (key : α → κ) (val : α → ℚ)
    (ks : List κ) (hnd : ks.Nodup) (hcov : ∀ r ∈ rows, key r ∈ ks) :
    ((ks.map fun k =>
        (((rows.filter fun r => decide (key r = k)).map val).sum)).sum)
      = (rows.map val).sum := by
  induction rows with
  | nil => simp
  | cons r t ih =>
    have hcovt : ∀ x ∈ t, key x ∈ ks := fun x hx =>
      hcov x (List.mem_cons_of_mem r hx)
    have step : ∀ k : κ,
        (((r :: t).filter fun x => decide (key x = k)).map val).sum
          = (if key r = k then val r else 0)
            + ((t.filter fun x => decide (key x = k)).map val).sum := by
      intro k
      by_cases h : key r = k
      · simp [List.filter_cons, h]
      · simp [List.filter_cons, h]
    calc ((ks.map fun k =>
            (((r :: t).filter fun x => decide (key x = k)).map val).sum)).sum
        = ((ks.map fun k =>
            (if key r = k then val r else 0)
              + ((t.filter fun x => decide (key x = k)).map val).sum)).sum := by
          exact congrArg List.sum (List.map_congr_left fun k _ => step k)
      _ = ((ks.map fun k => if key r = k then val r else 0)).sum
            + ((ks.map fun k =>
                ((t.filter fun x => decide (key x = k)).map val).sum)).sum :=
          sum_map_add ks _ _
      _ = val r + (t.map val).sum := by
          rw [sum_ite_single ks hnd (key r) (hcov r (List.mem_cons_self r t)),
            ih hcovt]
      _ = ((r :: t).map val).sum := by simp


/-- Summing a mapped value over a `flatMap` sums the per-element sums. -/
theorem sum_map_flatMap {α : Type u} {β : Type v} (l : List α)
    (f : α → List β) (v : β → ℚ) :
    (((l.flatMap f).map v)).sum
      = ((l.map fun a => ((f a).map v).sum)).sum := by
  induction l with
  | nil => simp
  | cons a t ih => simp [List.flatMap_cons, ih]

/-- Empty id lists append no predicate: the shared WHERE clause degenerates
to the date window alone. -/
theorem filteredSales_no_ids (db : DB) (s e : Nat) :
    filteredSales db s e [] [] =
      db.sales.filter fun r =>
        decide (s ≤ r.created_at ∧ r.created_at ≤ e) := by
  unfold filteredSales
  refine List.filter_congr fun r _ => ?_
  simp [saleMatches]

/-! ### Claim C5 — date-window normalization -/

/-- C5 counterexample: a sale at `23:59:59.999` of the end date (day 0) is
excluded by `day_range_for_date` (`app.py`) and by the `time(23,59,59)`
window of `pages/Stores.py`, both of which the claim covers. -/
theorem c5_counterexample :
    dateOf 86399999000 = 0 ∧
    ¬ inWindow 86399999000 (day_range_for_date 0) ∧
    ¬ inWindow 86399999000 (storesWindow 0 0) := by
  refine ⟨by decide, ?_, ?_⟩ <;> exact fun h => absurd h.2 (by decide)

/-- C5 (amended): the start timestamp of every normalized window is
`00:00:00` of the start date and `00:00:00` of the day after the end date is
always excluded; but only the `Sales.py` window (`time.max`) covers the
entire end date — the `day_range_for_date` / `pages/Stores.py` windows end
at `23:59:59` exactly, so they contain a timestamp only up to the final
whole second of the end date. -/
theorem c5_amended (d1 d2 t : Nat) :
    (inWindow t (salesWindow d1 d2) ↔ (d1 ≤ dateOf t ∧ dateOf t ≤ d2)) ∧
    (inWindow t (storesWindow d1 d2) → (d1 ≤ dateOf t ∧ dateOf t ≤ d2)) ∧
    (d1 ≤ dateOf t → dateOf t ≤ d2 → t % USEC_PER_DAY ≤ 86399 * USEC_PER_SEC →
      inWindow t (storesWindow d1 d2)) ∧
    day_range_for_date d1 = storesWindow d1 d1 := by
  simp only [inWindow, salesWindow, storesWindow, day_range_for_date, dateOf,
    USEC_PER_DAY, USEC_PER_SEC]
  refine ⟨⟨fun h => ?_, fun h => ?_⟩, fun h => ?_, fun h1 h2 h3 => ?_, trivial⟩
  all_goals omega

/-- C5 witness: a timestamp 1000 µs after midnight of day 2 is inside the
`pages/Stores.py` window for days 2–3. -/
theorem c5_witness :
    inWindow (2 * USEC_PER_DAY + 1000) (storesWindow 2 3) :=
  (c5_amended 2 3 (2 * USEC_PER_DAY + 1000)).2.2.1 (by decide) (by decide)
    (by decide)

/-! ### Claim C2 — scalar summary counts the base sales table -/

/-- C2: `total_orders` of the scalar query equals the exact number of sales
rows matching the window and filters; with no store/channel filter it is the
plain row count over the date window; and the scalar query reads the `sales`
table alone — replacing every other table leaves its result unchanged. -/
theorem c2_total_orders_true_count (db : DB) (s e : Nat) (st ch : List Int)
    (stores' : List Store) (channels' : List Channel)
    (payments' : List Payment) (payment_types' : List PaymentType)
    (product_sales' : List ProductSale) (products' : List Product) :
    (q_scalar db s e st ch).2.1 = (filteredSales db s e st ch).length ∧
    (q_scalar db s e [] []).2.1 =
      (db.sales.filter fun r =>
        decide (s ≤ r.created_at ∧ r.created_at ≤ e)).length ∧
    q_scalar { db with
        stores := stores'
        channels := channels'
        payments := payments'
        payment_types := payment_types'
        product_sales := product_sales'
        products := products' } s e st ch
      = q_scalar db s e st ch := by
  refine ⟨rfl, ?_, rfl⟩
  show (filteredSales db s e [] []).length = _
  rw [filteredSales_no_ids]

/-- C2 witness: the three conjuncts at a concrete database and window. -/
theorem c2_witness :
    (q_scalar dbW 0 USEC_PER_DAY [] [2]).2.1 =
      (filteredSales dbW 0 USEC_PER_DAY [] [2]).length ∧
    (q_scalar dbW 0 USEC_PER_DAY [] []).2.1 =
      (dbW.sales.filter fun r =>
        decide (0 ≤ r.created_at ∧ r.created_at ≤ USEC_PER_DAY)).length ∧
    q_scalar { dbW with
        stores := []
        channels := []
        payments := []
        payment_types := []
        product_sales := []
        products := [] }
        0 USEC_PER_DAY [] [2]
      = q_scalar dbW 0 USEC_PER_DAY [] [2] :=
  c2_total_orders_true_count dbW 0 USEC_PER_DAY [] [2] [] [] [] [] [] []

/-! ### Claim C9 — selection parsing fails with a `FormatError` -/

/-- The comprehension propagates the `ValueError` of a malformed entry: it
neither drops the entry nor returns garbage. -/
theorem choicesToIds_error (choices : List String)
    (h : ∃ c ∈ choices, pyInt (splitHead c.data) = none) :
    ∃ msg, choicesToIds choices = Except.error (FormatError.valueError msg) ∧
      pyInt msg = none := by
  induction choices with
  | nil =>
    obtain ⟨c, hc, _⟩ := h
    exact absurd hc (List.not_mem_nil c)
  | cons c rest ih =>
    rcases hp : pyInt (splitHead c.data) with _ | n
    · refine ⟨splitHead c.data, ?_, hp⟩
      have hfc : parseSelection c =
          Except.error (FormatError.valueError (splitHead c.data)) := by
        unfold parseSelection; rw [hp]
      simp [choicesToIds, hfc]
    · obtain ⟨c0, hc0, hbad⟩ := h
      have hc0rest : c0 ∈ rest := by
        rcases List.mem_cons.mp hc0 with rfl | h'
        · rw [hp] at hbad; cases hbad
        · exact h'
      have hfc : parseSelection c = Except.ok n := by
        unfold parseSelection; rw [hp]
      obtain ⟨msg, hres, hmsg⟩ := ih ⟨c0, hc0rest, hbad⟩
      refine ⟨msg, ?_, hmsg⟩
      simp [choicesToIds, hfc, hres]

/-- C9: when any selection entry's leading " - "-field is not parseable as
an integer, the comprehension fails with the `FormatError` (Python's
`ValueError`) carrying that unparseable field, and the fallback the caller
can take — an empty id list — is exactly the no-filter (select-all)
behaviour of the queries. -/
theorem c9_malformed_selection (choices : List String) (db : DB) (s e : Nat)
    (h : ∃ c ∈ choices, pyInt (splitHead c.data) = none) :
    (∃ msg, choicesToIds choices = Except.error (FormatError.valueError msg) ∧
      pyInt msg = none) ∧
    filteredSales db s e [] [] =
      db.sales.filter fun r =>
        decide (s ≤ r.created_at ∧ r.created_at ≤ e) :=
  ⟨choicesToIds_error choices h, filteredSales_no_ids db s e⟩

/-- C9 witness: the malformed selection `"foo - 9"` (leading field `foo`)
makes the comprehension fail, at a concrete database. -/
theorem c9_witness :
    (∃ c ∈ ["foo - 9"], pyInt (splitHead (String.data c)) = none) ∧
    ((∃ msg, choicesToIds ["foo - 9"]
        = Except.error (FormatError.valueError msg) ∧ pyInt msg = none) ∧
      filteredSales dbW 0 USEC_PER_DAY [] [] =
        dbW.sales.filter fun r =>
          decide (0 ≤ r.created_at ∧ r.created_at ≤ USEC_PER_DAY)) :=
  ⟨⟨"foo - 9", by simp, by decide⟩,
    c9_malformed_selection ["foo - 9"] dbW 0 USEC_PER_DAY
      ⟨"foo - 9", by simp, by decide⟩⟩

/-! ### Structure of `stores_overview` rows -/

/-- Every LEFT JOIN row carries a store passing the store filter, and its
sale side, when present, is a sales row matching the join condition. -/
theorem stores_leftjoin_mem (db : DB) (s e : Nat) (sf cf : List Int)
    (x : Store × Option Sale) (hx : x ∈ stores_leftjoin db s e sf cf) :
    x.1 ∈ db.stores ∧ (sf = [] ∨ x.1.id ∈ sf) ∧
      ∀ r, x.2 = some r → r ∈ db.sales ∧ storesJoinMatches x.1.id s e cf r := by
  unfold stores_leftjoin at hx
  obtain ⟨t, ht, hxt⟩ := List.mem_flatMap.mp hx
  obtain ⟨ht1, ht2⟩ := List.mem_filter.mp ht
  by_cases hms : (store_matching_sales db s e cf t.id).isEmpty
  · rw [if_pos hms] at hxt
    have hxeq := List.mem_singleton.mp hxt
    subst hxeq
    exact ⟨ht1, of_decide_eq_true ht2, fun r hr => by cases hr⟩
  · rw [if_neg hms] at hxt
    obtain ⟨r, hrm, hxeq⟩ := List.mem_map.mp hxt
    subst hxeq
    obtain ⟨hr1, hr2⟩ := List.mem_filter.mp hrm
    refine ⟨ht1, of_decide_eq_true ht2, fun r' hr' => ?_⟩
    obtain rfl := Option.some.inj hr'
    exact ⟨hr1, of_decide_eq_true hr2⟩

/-- Conversely, every store passing the store filter contributes at least
one LEFT JOIN row (outer-join semantics). -/
theorem stores_leftjoin_store_mem (db : DB) (s e : Nat) (sf cf : List Int)
    (t : Store) (ht : t ∈ db.stores) (htf : sf = [] ∨ t.id ∈ sf) :
    ∃ x ∈ stores_leftjoin db s e sf cf, x.1 = t := by
  unfold stores_leftjoin
  by_cases hms : (store_matching_sales db s e cf t.id).isEmpty
  · refine ⟨(t, none), List.mem_flatMap.mpr
      ⟨t, List.mem_filter.mpr ⟨ht, decide_eq_true htf⟩, ?_⟩, rfl⟩
    rw [if_pos hms]
    exact List.mem_singleton.mpr rfl
  · obtain ⟨r, hr⟩ : ∃ r, r ∈ store_matching_sales db s e cf t.id := by
      rcases hL : store_matching_sales db s e cf t.id with _ | ⟨r, rs⟩
      · rw [hL] at hms; simp at hms
      · exact ⟨r, List.mem_cons_self r rs⟩
    refine ⟨(t, some r), List.mem_flatMap.mpr
      ⟨t, List.mem_filter.mpr ⟨ht, decide_eq_true htf⟩, ?_⟩, rfl⟩
    rw [if_neg hms]
    exact List.mem_map.mpr ⟨r, hr, rfl⟩

/-- The `GROUP BY` keys of `stores_overview` are exactly the (id, name)
pairs of the stores passing the store filter; the channel filter plays no
part. -/
theorem stores_overview_keys_mem (db : DB) (s e : Nat) (sf cf : List Int)
    (k : Int × String) :
    k ∈ stores_overview_keys db s e sf cf ↔
      ∃ t ∈ db.stores, (sf = [] ∨ t.id ∈ sf) ∧ (t.id, t.name) = k := by
  unfold stores_overview_keys
  rw [List.mem_dedup, List.mem_map]
  constructor
  · rintro ⟨x, hx, rfl⟩
    obtain ⟨h1, h2, _⟩ := stores_leftjoin_mem db s e sf cf x hx
    exact ⟨x.1, h1, h2, rfl⟩
  · rintro ⟨t, ht, htf, rfl⟩
    obtain ⟨x, hx, hxt⟩ := stores_leftjoin_store_mem db s e sf cf t ht htf
    exact ⟨x, hx, by rw [hxt]⟩

/-- Every sale aggregated into a group of `stores_overview` is a database
row matching the group's store id through the join condition. -/
theorem stores_group_sales_spec (db : DB) (s e : Nat) (sf cf : List Int)
    (k : Int × String) (r : Sale)
    (hr : r ∈ stores_group_sales db s e sf cf k) :
    r ∈ db.sales ∧ storesJoinMatches k.1 s e cf r := by
  unfold stores_group_sales at hr
  obtain ⟨x, hx, hxr⟩ := List.mem_filterMap.mp hr
  obtain ⟨hxm, hxk⟩ := List.mem_filter.mp hx
  obtain ⟨_, _, hsale⟩ := stores_leftjoin_mem db s e sf cf x hxm
  have hk : (x.1.id, x.1.name) = k := of_decide_eq_true hxk
  obtain ⟨hr1, hr2⟩ := hsale r hxr
  have hid : x.1.id = k.1 := by rw [← hk]
  rw [hid] at hr2
  exact ⟨hr1, hr2⟩

/-- The rows of `stores_overview` are exactly the aggregated groups of its
key list. -/
theorem stores_overview_mem (db : DB) (d1 d2 : Nat) (sf cf : List Int)
    (row : StoreRow) :
    row ∈ stores_overview db d1 d2 sf cf ↔
      ∃ k ∈ stores_overview_keys db (storesWindow d1 d2).1
          (storesWindow d1 d2).2 sf cf,
        stores_overview_group db (storesWindow d1 d2).1
          (storesWindow d1 d2).2 sf cf k = row := by
  unfold stores_overview
  rw [(perm_sortBy _ _).mem_iff, List.mem_map]

/-- The (id, name) pairs of the `stores_overview` rows are a permutation of
its key list. -/
theorem stores_overview_map_key_perm (db : DB) (d1 d2 : Nat)
    (sf cf : List Int) :
    ((stores_overview db d1 d2 sf cf).map fun row =>
      (row.store_id, row.store_name)).Perm
      (stores_overview_keys db (storesWindow d1 d2).1
        (storesWindow d1 d2).2 sf cf) := by
  unfold stores_overview
  refine ((perm_sortBy _ _).map _).trans ?_
  rw [List.map_map]
  have h : ∀ k ∈ stores_overview_keys db (storesWindow d1 d2).1
      (storesWindow d1 d2).2 sf cf,
      ((fun row => (row.store_id, row.store_name)) ∘
        stores_overview_group db (storesWindow d1 d2).1
          (storesWindow d1 d2).2 sf cf) k = k := fun k _ => Prod.mk.eta
  rw [List.map_congr_left h]
  simp

/-! ### Claim C4 — the avg_ticket invariant -/

/-- C4 counterexample: a store with sales of 100 and 0 in the window gets
`total_sales = 100`, `total_orders = 2` but `avg_ticket = 100` (the average
of the nonzero amounts), not `100 / 2 = 50` as the claim requires. -/
theorem c4_counterexample :
    stores_overview dbZ 0 0 [] [] =
      [{ store_id := 1, store_name := "A", total_sales := 100,
         total_orders := 2, avg_ticket := 100 }] ∧
    ¬ ((100 : ℚ) = 100 / 2) := by
  constructor
  · norm_num [stores_overview, stores_overview_keys, stores_overview_group,
      stores_group_sales, stores_leftjoin, store_matching_sales,
      storesJoinMatches, storesWindow, dbZ, sortBy, insertLe,
      List.filter, List.dedup, List.flatMap, List.filterMap_cons]
  · norm_num

/-- If every amount of a list is nonzero, the `AVG(NULLIF(·,0))` aggregate
collapses to sum over length, i.e. to total over count. -/
theorem avg_ticket_formula (l : List Sale)
    (hall : ∀ r ∈ l, r.total_amount ≠ 0) :
    (if (l.filter fun r => decide (r.total_amount ≠ 0)).isEmpty then (0 : ℚ)
      else (((l.filter fun r => decide (r.total_amount ≠ 0)).map
          fun r => r.total_amount).sum) /
        (((l.filter fun r => decide (r.total_amount ≠ 0)).length : ℚ)))
    = if 0 < l.length then
        ((l.map fun r => r.total_amount).sum) / (l.length : ℚ)
      else 0 := by
  have hfil : (l.filter fun r => decide (r.total_amount ≠ 0)) = l :=
    List.filter_eq_self.mpr fun a ha => decide_eq_true (hall a ha)
  rw [hfil]
  cases l with
  | nil => simp
  | cons a t => simp

/-- C4 (amended): the scalar summary satisfies
`avg_ticket = total_sales / total_orders` when `total_orders > 0`, else `0`;
a `stores_overview` row instead averages the store's nonzero sale amounts,
which agrees with that invariant whenever every sale the row counts has a
nonzero `total_amount` (and can diverge otherwise, as the counterexample
shows). -/
theorem c4_avg_ticket (db : DB) (s e d1 d2 : Nat) (st ch : List Int) :
    ((q_scalar db s e st ch).2.2 =
      if 0 < (q_scalar db s e st ch).2.1 then
        (q_scalar db s e st ch).1 / ((q_scalar db s e st ch).2.1 : ℚ)
      else 0) ∧
    (∀ row ∈ stores_overview db d1 d2 st ch,
      (∀ r ∈ db.sales,
        storesJoinMatches row.store_id (storesWindow d1 d2).1
          (storesWindow d1 d2).2 ch r → r.total_amount ≠ 0) →
      row.avg_ticket =
        if 0 < row.total_orders then
          row.total_sales / (row.total_orders : ℚ)
        else 0) := by
  refine ⟨rfl, fun row hrow hnz => ?_⟩
  obtain ⟨k, hk, hkrow⟩ := (stores_overview_mem db d1 d2 st ch row).mp hrow
  subst hkrow
  have hall : ∀ r ∈ stores_group_sales db (storesWindow d1 d2).1
      (storesWindow d1 d2).2 st ch k, r.total_amount ≠ 0 := by
    intro r hr
    obtain ⟨hr1, hr2⟩ := stores_group_sales_spec db (storesWindow d1 d2).1
      (storesWindow d1 d2).2 st ch k r hr
    exact hnz r hr1 hr2
  simp only [stores_overview_group]
  exact avg_ticket_formula _ hall

/-- C4 witness: the amended claim at the witness database (whose sale
amounts are all nonzero, so both formulas agree there). -/
theorem c4_witness :
    ((q_scalar dbW 0 USEC_PER_DAY [] []).2.2 =
      if 0 < (q_scalar dbW 0 USEC_PER_DAY [] []).2.1 then
        (q_scalar dbW 0 USEC_PER_DAY [] []).1 /
          ((q_scalar dbW 0 USEC_PER_DAY [] []).2.1 : ℚ)
      else 0) ∧
    (∀ row ∈ stores_overview dbW 0 1 [] [],
      (∀ r ∈ dbW.sales,
        storesJoinMatches row.store_id (storesWindow 0 1).1
          (storesWindow 0 1).2 [] r → r.total_amount ≠ 0) →
      row.avg_ticket =
        if 0 < row.total_orders then
          row.total_sales / (row.total_orders : ℚ)
        else 0) :=
  c4_avg_ticket dbW 0 USEC_PER_DAY 0 1 [] []

/-! ### Claim C6 — every store appears in the overview -/

/-- C6: every store passing the (sole) store-level filter appears as a row
of `stores_overview`; the (id, name) pairs of the rows are duplicate-free;
a row whose store matches no sale under the window and channel filter has
all sales-derived columns zero; and changing the channel filter permutes
(hence never removes) the stores appearing. -/
theorem c6_store_rows (db : DB) (d1 d2 : Nat) (sf cf cf' : List Int) :
    (∀ t ∈ db.stores, (sf = [] ∨ t.id ∈ sf) →
      ∃ row ∈ stores_overview db d1 d2 sf cf,
        row.store_id = t.id ∧ row.store_name = t.name) ∧
    ((stores_overview db d1 d2 sf cf).map fun row =>
      (row.store_id, row.store_name)).Nodup ∧
    (∀ row ∈ stores_overview db d1 d2 sf cf,
      (∀ r ∈ db.sales, ¬ storesJoinMatches row.store_id (storesWindow d1 d2).1
          (storesWindow d1 d2).2 cf r) →
      row.total_sales = 0 ∧ row.total_orders = 0 ∧ row.avg_ticket = 0) ∧
    ((stores_overview db d1 d2 sf cf).map fun row =>
      (row.store_id, row.store_name)).Perm
      ((stores_overview db d1 d2 sf cf').map fun row =>
        (row.store_id, row.store_name)) := by
  refine ⟨?_, ?_, ?_, ?_⟩
  · intro t ht htf
    have hkmem : (t.id, t.name) ∈ stores_overview_keys db
        (storesWindow d1 d2).1 (storesWindow d1 d2).2 sf cf :=
      (stores_overview_keys_mem db (storesWindow d1 d2).1
        (storesWindow d1 d2).2 sf cf (t.id, t.name)).mpr ⟨t, ht, htf, rfl⟩
    have := (stores_overview_map_key_perm db d1 d2 sf cf).mem_iff.mpr hkmem
    obtain ⟨row, hrow, hkey⟩ := List.mem_map.mp this
    exact ⟨row, hrow, congrArg Prod.fst hkey, congrArg Prod.snd hkey⟩
  · exact (stores_overview_map_key_perm db d1 d2 sf cf).nodup_iff.mpr
      (List.nodup_dedup _)
  · intro row hrow hno
    obtain ⟨k, hk, hkrow⟩ := (stores_overview_mem db d1 d2 sf cf row).mp hrow
    have hsid : (stores_overview_group db (storesWindow d1 d2).1
        (storesWindow d1 d2).2 sf cf k).store_id = k.1 := rfl
    have hnil : stores_group_sales db (storesWindow d1 d2).1
        (storesWindow d1 d2).2 sf cf k = [] := by
      rw [List.eq_nil_iff_forall_not_mem]
      intro r hr
      obtain ⟨hr1, hr2⟩ := stores_group_sales_spec db (storesWindow d1 d2).1
        (storesWindow d1 d2).2 sf cf k r hr
      have : k.1 = row.store_id := by rw [← hkrow]; exact rfl
      rw [this] at hr2
      exact hno r hr1 hr2
    subst hkrow
    simp only [stores_overview_group]
    rw [hnil]
    simp
  · rw [List.perm_ext_iff_of_nodup
      ((stores_overview_map_key_perm db d1 d2 sf cf).nodup_iff.mpr
        (List.nodup_dedup _))
      ((stores_overview_map_key_perm db d1 d2 sf cf').nodup_iff.mpr
        (List.nodup_dedup _))]
    intro k
    rw [(stores_overview_map_key_perm db d1 d2 sf cf).mem_iff,
      (stores_overview_map_key_perm db d1 d2 sf cf').mem_iff,
      stores_overview_keys_mem, stores_overview_keys_mem]

/-- C6 witness: the four conjuncts at the witness database with store filter
off and two different channel filters. -/
theorem c6_witness :
    (∀ t ∈ dbW.stores, (([] : List Int) = [] ∨ t.id ∈ ([] : List Int)) →
      ∃ row ∈ stores_overview dbW 0 1 [] [2],
        row.store_id = t.id ∧ row.store_name = t.name) ∧
    ((stores_overview dbW 0 1 [] [2]).map fun row =>
      (row.store_id, row.store_name)).Nodup ∧
    (∀ row ∈ stores_overview dbW 0 1 [] [2],
      (∀ r ∈ dbW.sales, ¬ storesJoinMatches row.store_id (storesWindow 0 1).1
          (storesWindow 0 1).2 [2] r) →
      row.total_sales = 0 ∧ row.total_orders = 0 ∧ row.avg_ticket = 0) ∧
    ((stores_overview dbW 0 1 [] [2]).map fun row =>
      (row.store_id, row.store_name)).Perm
      ((stores_overview dbW 0 1 [] [3]).map fun row =>
        (row.store_id, row.store_name)) :=
  c6_store_rows dbW 0 1 [] [2] [3]

/-! ### Claim C1 — zero-total payment groups -/

/-- C1 counterexample: a channel group consisting of one zero-total row is
skipped entirely by the chart loop — its rows are not returned with a `0`
share; they are not returned at all. -/
theorem c1_counterexample :
    channelTotal rowsZ "A" = 0 ∧ renderPaymentCharts rowsZ = [] := by
  constructor <;>
    norm_num [renderPaymentCharts, channelsList, channelTotal, channelSubset,
      rowsZ, sortBy, insertLe, List.dedup, List.filterMap]

/-- C1 (amended): the loop raises no division error — a zero-total channel
group is skipped entirely (its rows receive no share and are not rendered),
and every rendered group has a nonzero total, carries all of its subset's
rows, each with share `total / group_total * 100`. -/
theorem c1_zero_total_group (rows : List PaymentMethodRow) (chname : String)
    (hzero : channelTotal rows chname = 0) :
    (∀ p ∈ renderPaymentCharts rows, p.1 ≠ chname) ∧
    (∀ p ∈ renderPaymentCharts rows,
      channelTotal rows p.1 ≠ 0 ∧
      p.2.length = (channelSubset rows p.1).length ∧
      ∀ q ∈ p.2, q.pct = q.row.total / channelTotal rows p.1 * 100) := by
  have key : ∀ p ∈ renderPaymentCharts rows,
      channelTotal rows p.1 ≠ 0 ∧
      p.2.length = (channelSubset rows p.1).length ∧
      ∀ q ∈ p.2, q.pct = q.row.total / channelTotal rows p.1 * 100 := by
    intro p hp
    unfold renderPaymentCharts at hp
    obtain ⟨chn, _, hfp⟩ := List.mem_filterMap.mp hp
    by_cases h0 : channelTotal rows chn = 0
    · rw [if_pos h0] at hfp
      cases hfp
    · rw [if_neg h0] at hfp
      obtain rfl := Option.some.inj hfp
      refine ⟨h0, by simp, fun q hq => ?_⟩
      obtain ⟨r, _, rfl⟩ := List.mem_map.mp hq
      rfl
  refine ⟨fun p hp hpch => ?_, key⟩
  obtain ⟨h0, _⟩ := key p hp
  rw [hpch] at h0
  exact h0 hzero

/-- C1 witness: the amended claim on a two-channel row list whose channel
"A" group has total `0`. -/
theorem c1_witness :
    channelTotal rowsB "A" = 0 ∧
    ((∀ p ∈ renderPaymentCharts rowsB, p.1 ≠ "A") ∧
    (∀ p ∈ renderPaymentCharts rowsB,
      channelTotal rowsB p.1 ≠ 0 ∧
      p.2.length = (channelSubset rowsB p.1).length ∧
      ∀ q ∈ p.2, q.pct = q.row.total / channelTotal rowsB p.1 * 100)) :=
  ⟨by simp +decide [channelTotal, channelSubset, rowsB, List.filter_cons],
    c1_zero_total_group rowsB "A"
      (by simp +decide [channelTotal, channelSubset, rowsB, List.filter_cons])⟩

/-! ### Claim C7 — top products: limit, grouping, ordering, ties -/

/-- C7 counterexample: two products tied at quantity 1 come out in the
order the rows were first seen — product 5 before product 3 — not in
ascending product-id order, because the query orders by quantity alone. -/
theorem c7_counterexample :
    ((top_products_by_store dbT 0 0 [] [] 10).map fun r =>
      (r.product_id, r.total_qty)) = [(5, 1), (3, 1)] ∧
    ¬ ((5 : Int) ≤ 3) := by
  constructor
  · decide
  · decide

/-- C7 (amended): `top_products_by_store` returns at most `limit` rows, one
per distinct (product id, product name), in descending quantity order; the
query breaks quantity ties by no further key, so tied rows keep their
first-appearance order rather than ascending product-id order. -/
theorem c7_top_products (db : DB) (d1 d2 : Nat) (st ch : List Int)
    (limit : Nat) :
    (top_products_by_store db d1 d2 st ch limit).length ≤ limit ∧
    ((top_products_by_store db d1 d2 st ch limit).map fun r =>
      (r.product_id, r.product_name)).Nodup ∧
    (top_products_by_store db d1 d2 st ch limit).Pairwise
      (fun a b => b.total_qty ≤ a.total_qty) := by
  have htot : ∀ a b : ProductRow,
      decide (b.total_qty ≤ a.total_qty) = true ∨
      decide (a.total_qty ≤ b.total_qty) = true := by
    intro a b
    rcases le_total b.total_qty a.total_qty with h | h
    · exact Or.inl (decide_eq_true h)
    · exact Or.inr (decide_eq_true h)
  have htrans : ∀ a b c : ProductRow,
      decide (b.total_qty ≤ a.total_qty) = true →
      decide (c.total_qty ≤ b.total_qty) = true →
      decide (c.total_qty ≤ a.total_qty) = true := fun a b c hab hbc =>
    decide_eq_true (le_trans (of_decide_eq_true hbc) (of_decide_eq_true hab))
  refine ⟨List.length_take_le limit _, ?_, ?_⟩
  · unfold top_products_by_store
    rw [List.map_take]
    refine List.Nodup.sublist (List.take_sublist _ _) ?_
    refine ((perm_sortBy _ _).map _).nodup_iff.mpr ?_
    have hkey : ((top_products_keys db (storesWindow d1 d2).1
        (storesWindow d1 d2).2 st ch).map
          (top_products_group db (storesWindow d1 d2).1
            (storesWindow d1 d2).2 st ch)).map
        (fun r => (r.product_id, r.product_name)) =
        top_products_keys db (storesWindow d1 d2).1
          (storesWindow d1 d2).2 st ch :=
      map_key_of_groups _ _ _ fun k _ => rfl
    rw [hkey]
    exact List.nodup_dedup _
  · unfold top_products_by_store
    refine List.Pairwise.sublist (List.take_sublist _ _) ?_
    exact (pairwise_sortBy _ htot htrans _).imp fun h => of_decide_eq_true h

/-- C7 witness: the amended claim at the tie database with limit 10. -/
theorem c7_witness :
    (top_products_by_store dbT 0 0 [] [] 10).length ≤ 10 ∧
    ((top_products_by_store dbT 0 0 [] [] 10).map fun r =>
      (r.product_id, r.product_name)).Nodup ∧
    (top_products_by_store dbT 0 0 [] [] 10).Pairwise
      (fun a b => b.total_qty ≤ a.total_qty) :=
  c7_top_products dbT 0 0 [] [] 10

/-! ### Claim C8 — daily totals sum to the scalar total -/

/-- C8: when every sale's channel id and store id each match exactly one
row of the `channels` / `stores` tables (the foreign keys of the data
model), the `q_daily` totals sum to exactly the scalar query's
`total_sales` — equal as exact rationals, hence within any rounding
tolerance. -/
theorem c8_daily_matches_scalar (db : DB) (s e : Nat) (st ch : List Int)
    (hch : ∀ r ∈ db.sales,
      (db.channels.filter fun c => decide (c.id = r.channel_id)).length = 1)
    (hst : ∀ r ∈ db.sales,
      (db.stores.filter fun t => decide (t.id = r.store_id)).length = 1)
    (_hne : q_daily db s e st ch ≠ []) :
    ((q_daily db s e st ch).map fun x => x.total).sum =
      (q_scalar db s e st ch).1 := by
  have h1 : ((q_daily db s e st ch).map fun x => x.total).sum =
      (((q_daily_keys db s e st ch).map (q_daily_group db s e st ch)).map
        fun x => x.total).sum :=
    ((perm_sortBy _ _).map _).sum_eq
  have h2 : (((q_daily_keys db s e st ch).map
        (q_daily_group db s e st ch)).map fun x => x.total).sum
      = ((q_daily_joined db s e st ch).map fun x => x.2.2.2).sum := by
    rw [List.map_map]
    exact sum_fibers (q_daily_joined db s e st ch)
      (fun x => (x.1, x.2.1, x.2.2.1)) (fun x => x.2.2.2)
      (q_daily_keys db s e st ch) (List.nodup_dedup _)
      (fun r hr => List.mem_dedup.mpr (List.mem_map_of_mem _ hr))
  have h3 : ((q_daily_joined db s e st ch).map fun x => x.2.2.2).sum
      = ((filteredSales db s e st ch).map fun r => r.total_amount).sum := by
    unfold q_daily_joined
    rw [sum_map_flatMap]
    refine congrArg List.sum (List.map_congr_left fun r hr => ?_)
    have hrs : r ∈ db.sales := (List.mem_filter.mp hr).1
    obtain ⟨c0, hc0⟩ := List.length_eq_one.mp (hch r hrs)
    obtain ⟨t0, ht0⟩ := List.length_eq_one.mp (hst r hrs)
    rw [hc0, ht0]
    simp
  rw [h1, h2, h3]
  rfl

/-- C8 witness: the equality at the witness database over a two-day window
with no id filters; its foreign keys are intact and its daily table is
non-empty. -/
theorem c8_witness :
    (∀ r ∈ dbW.sales,
      (dbW.channels.filter fun c => decide (c.id = r.channel_id)).length
        = 1) ∧
    (∀ r ∈ dbW.sales,
      (dbW.stores.filter fun t => decide (t.id = r.store_id)).length = 1) ∧
    q_daily dbW 0 (2 * USEC_PER_DAY) [] [] ≠ [] ∧
    ((q_daily dbW 0 (2 * USEC_PER_DAY) [] []).map fun x => x.total).sum =
      (q_scalar dbW 0 (2 * USEC_PER_DAY) [] []).1 :=
  ⟨by decide, by decide, by decide,
    c8_daily_matches_scalar dbW 0 (2 * USEC_PER_DAY) [] []
      (by decide) (by decide) (by decide)⟩

/-! ### Structure of the weekday table -/

/-- `dow_to_name` of the seven day-of-week numbers, as a finite check. -/
theorem dow_to_name_mem_frame_fin :
    ∀ d : Fin 7, dow_to_name d ∈ weekdayFrame := by decide

/-- A day-of-week number below 7 is named inside the Mon-first frame. -/
theorem dow_to_name_mem_frame (d : Nat) (hd : d < 7) :
    dow_to_name d ∈ weekdayFrame :=
  dow_to_name_mem_frame_fin ⟨d, hd⟩

/-- `dow_to_name` is injective on the seven day-of-week numbers. -/
theorem dow_to_name_inj_fin :
    ∀ d1 d2 : Fin 7, dow_to_name d1 = dow_to_name d2 → d1 = d2 := by decide

/-- `dow_to_name` is injective below 7. -/
theorem dow_to_name_inj (d1 d2 : Nat) (h1 : d1 < 7) (h2 : d2 < 7)
    (h : dow_to_name d1 = dow_to_name d2) : d1 = d2 :=
  congrArg Fin.val (dow_to_name_inj_fin ⟨d1, h1⟩ ⟨d2, h2⟩ h)

/-- Each daily row's day-of-week is below 7 and comes from a matching
sale. -/
theorem weekday_daily_dow (value : Sale → ℚ) (db : DB) (s e : Nat)
    (st ch : List Int) (x : Nat × Nat × ℚ)
    (hx : x ∈ weekday_daily value db s e st ch) :
    x.2.1 < 7 ∧
      ∃ r ∈ filteredSales db s e st ch, dowOf r.created_at = x.2.1 := by
  unfold weekday_daily at hx
  obtain ⟨k, hk, hxk⟩ := List.mem_map.mp hx
  subst hxk
  obtain ⟨r, hr, hkr⟩ := List.mem_map.mp (List.mem_dedup.mp hk)
  constructor
  · show k.2 < 7
    rw [← hkr]
    show (dateOf r.created_at + 4) % 7 < 7
    exact Nat.mod_lt _ (by norm_num)
  · exact ⟨r, hr, congrArg Prod.snd hkr⟩

/-- Each `GROUP BY dow` key is below 7. -/
theorem weekday_dows_lt (value : Sale → ℚ) (db : DB) (s e : Nat)
    (st ch : List Int) (d : Nat)
    (hd : d ∈ weekday_dows value db s e st ch) : d < 7 := by
  unfold weekday_dows at hd
  obtain ⟨x, hx, hxd⟩ := List.mem_map.mp (List.mem_dedup.mp hd)
  rw [← hxd]
  exact (weekday_daily_dow value db s e st ch x hx).1

/-- Each grouped weekday row has a day-of-week below 7 coming from a
matching sale. -/
theorem weekday_grouped_mem (value : Sale → ℚ) (db : DB) (s e : Nat)
    (st ch : List Int) (g : DowAgg)
    (hg : g ∈ weekday_grouped value db s e st ch) :
    g.dow < 7 ∧
      ∃ r ∈ filteredSales db s e st ch, dowOf r.created_at = g.dow := by
  unfold weekday_grouped at hg
  obtain ⟨d, hd, hdg⟩ := List.mem_map.mp ((perm_sortBy _ _).mem_iff.mp hg)
  subst hdg
  refine ⟨weekday_dows_lt value db s e st ch d hd, ?_⟩
  obtain ⟨x, hx, hxd⟩ := List.mem_map.mp (List.mem_dedup.mp hd)
  obtain ⟨_, r, hr, hdow⟩ := weekday_daily_dow value db s e st ch x hx
  exact ⟨r, hr, by rw [← hxd]; exact hdow⟩

/-- The weekday names of the grouped rows are duplicate-free. -/
theorem weekday_grouped_names_nodup (value : Sale → ℚ) (db : DB) (s e : Nat)
    (st ch : List Int) :
    ((weekday_grouped value db s e st ch).map
      fun g => dow_to_name g.dow).Nodup := by
  unfold weekday_grouped
  refine ((perm_sortBy _ _).map _).nodup_iff.mpr ?_
  rw [List.map_map]
  refine List.Nodup.map_on ?_ (List.nodup_dedup _)
  intro a ha b hb hab
  exact dow_to_name_inj a b
    (weekday_dows_lt value db s e st ch a ha)
    (weekday_dows_lt value db s e st ch b hb) hab

/-- Filtering on a key a duplicate-free key map hits at most once. -/
theorem length_filter_le_one {α : Type u} {β : Type v} [DecidableEq β]
    (l : List α) (f : α → β) (hl : (l.map f).Nodup) (b : β) :
    (l.filter fun a => decide (f a = b)).length ≤ 1 := by
  induction l with
  | nil => simp
  | cons a t ih =>
    rw [List.map_cons, List.nodup_cons] at hl
    obtain ⟨hna, hnd⟩ := hl
    by_cases h : f a = b
    · have ht : t.filter (fun x => decide (f x = b)) = [] := by
        rw [List.eq_nil_iff_forall_not_mem]
        intro x hx
        obtain ⟨hxt, hfx⟩ := List.mem_filter.mp hx
        have hfa : f a = f x := h.trans (of_decide_eq_true hfx).symm
        exact hna (hfa ▸ List.mem_map_of_mem f hxt)
      rw [List.filter_cons, if_pos (decide_eq_true h), ht]
      simp
    · rw [List.filter_cons, if_neg]
      · exact ih hnd
      · simp [h]

/-- A `flatMap` whose blocks are singletons of their seeds is the
identity. -/
theorem flatMap_eq_self {α : Type u} (l : List α) (f : α → List α)
    (h : ∀ a ∈ l, f a = [a]) : l.flatMap f = l := by
  induction l with
  | nil => simp
  | cons a t ih =>
    rw [List.flatMap_cons, h a (List.mem_cons_self a t),
      ih fun x hx => h x (List.mem_cons_of_mem a hx)]
    rfl

/-- The merged weekday table lists exactly the 7 weekday names, Mon
first. -/
theorem weekday_merged_map_weekday (value : Sale → ℚ) (db : DB) (s e : Nat)
    (st ch : List Int) :
    (weekday_merged value db s e st ch).map (fun row => row.weekday)
      = weekdayFrame := by
  unfold weekday_merged
  rw [List.map_flatMap]
  refine flatMap_eq_self _ _ fun w hw => ?_
  by_cases hE : ((weekday_grouped value db s e st ch).filter
      fun g => decide (dow_to_name g.dow = w)).isEmpty
  · rw [if_pos hE]
    rfl
  · rw [if_neg hE]
    have hle := length_filter_le_one (weekday_grouped value db s e st ch)
      (fun g => dow_to_name g.dow)
      (weekday_grouped_names_nodup value db s e st ch) w
    have hne : ((weekday_grouped value db s e st ch).filter
        fun g => decide (dow_to_name g.dow = w)) ≠ [] := by
      intro hnil
      rw [hnil] at hE
      exact hE rfl
    have h1 := le_antisymm hle (List.length_pos.mpr hne)
    obtain ⟨g, hg⟩ := List.length_eq_one.mp h1
    rw [hg]
    rfl

/-- The final `sort_values` on the Mon-first categorical order leaves the
merged table unchanged: it is already in that order. -/
theorem avg_sales_eq_merged (value : Sale → ℚ) (db : DB) (s e : Nat)
    (st ch : List Int) :
    avg_sales_by_weekday value db s e st ch
      = weekday_merged value db s e st ch := by
  unfold avg_sales_by_weekday
  refine sortBy_eq_self_of_pairwise _ _ ?_
  have hframe : List.Pairwise (fun x y : String =>
      decide (weekdayIndex x ≤ weekdayIndex y) = true) weekdayFrame := by
    decide
  rw [← weekday_merged_map_weekday value db s e st ch] at hframe
  exact List.pairwise_map.mp hframe

/-! ### Claim C3 — the weekday table always has 7 zero-filled rows -/

/-- C3: for every database, window, value column and id filters,
`avg_sales_by_weekday` has exactly 7 rows whose weekday names are
Mon, Tue, …, Sun in order, and every row whose weekday matches no filtered
sale is zero-filled (`avg_total = 0`, `sum_total = 0`, `days_count = 0`). -/
theorem c3_seven_weekday_rows (value : Sale → ℚ) (db : DB) (s e : Nat)
    (st ch : List Int) :
    (avg_sales_by_weekday value db s e st ch).length = 7 ∧
    ((avg_sales_by_weekday value db s e st ch).map fun row => row.weekday)
      = weekdayFrame ∧
    (∀ row ∈ avg_sales_by_weekday value db s e st ch,
      (∀ r ∈ filteredSales db s e st ch,
        dow_to_name (dowOf r.created_at) ≠ row.weekday) →
      row.avg_total = 0 ∧ row.sum_total = 0 ∧ row.days_count = 0) := by
  have hmap : ((avg_sales_by_weekday value db s e st ch).map
      fun row => row.weekday) = weekdayFrame := by
    rw [avg_sales_eq_merged]
    exact weekday_merged_map_weekday value db s e st ch
  refine ⟨?_, hmap, ?_⟩
  · have hlen := congrArg List.length hmap
    rw [List.length_map] at hlen
    exact hlen.trans rfl
  · intro row hrow hno
    rw [avg_sales_eq_merged] at hrow
    unfold weekday_merged at hrow
    obtain ⟨w, hw, hrw⟩ := List.mem_flatMap.mp hrow
    by_cases hE : ((weekday_grouped value db s e st ch).filter
        fun g => decide (dow_to_name g.dow = w)).isEmpty
    · rw [if_pos hE] at hrw
      have hz := List.mem_singleton.mp hrw
      subst hz
      exact ⟨rfl, rfl, rfl⟩
    · rw [if_neg hE] at hrw
      obtain ⟨g, hgf, hgr⟩ := List.mem_map.mp hrw
      obtain ⟨hgG, hgw⟩ := List.mem_filter.mp hgf
      obtain ⟨_, r, hr, hdow⟩ := weekday_grouped_mem value db s e st ch g hgG
      exfalso
      have hname : dow_to_name g.dow = w := of_decide_eq_true hgw
      have hroww : row.weekday = w := by rw [← hgr]; rfl
      exact hno r hr (by rw [hdow, hname]; exact hroww.symm)

/-- C3 witness: the three conjuncts at the witness database over a two-day
window with a channel filter. -/
theorem c3_witness :
    (avg_sales_by_weekday (fun r => r.total_amount) dbW 0 (2 * USEC_PER_DAY)
      [] [2]).length = 7 ∧
    ((avg_sales_by_weekday (fun r => r.total_amount) dbW 0 (2 * USEC_PER_DAY)
      [] [2]).map fun row => row.weekday) = weekdayFrame ∧
    (∀ row ∈ avg_sales_by_weekday (fun r => r.total_amount) dbW 0
        (2 * USEC_PER_DAY) [] [2],
      (∀ r ∈ filteredSales dbW 0 (2 * USEC_PER_DAY) [] [2],
        dow_to_name (dowOf r.created_at) ≠ row.weekday) →
      row.avg_total = 0 ∧ row.sum_total = 0 ∧ row.days_count = 0) :=
  c3_seven_weekday_rows (fun r => r.total_amount) dbW 0 (2 * USEC_PER_DAY)
    [] [2]

/-! ### Claim C10 — weekday sums versus the scalar total -/

/-- The weekday table's `sum_total` column sums to the sum of the chosen
value column over the filtered sales. -/
theorem weekday_sum_total (value : Sale → ℚ) (db : DB) (s e : Nat)
    (st ch : List Int) :
    ((avg_sales_by_weekday value db s e st ch).map
      fun row => row.sum_total).sum
      = ((filteredSales db s e st ch).map value).sum := by
  rw [avg_sales_eq_merged]
  have hA : ((weekday_merged value db s e st ch).map
      fun row => row.sum_total).sum
      = ((weekday_grouped value db s e st ch).map
        fun g => g.sum_total).sum := by
    unfold weekday_merged
    rw [sum_map_flatMap]
    refine Eq.trans (congrArg List.sum
      (List.map_congr_left fun w hw => ?_))
      (sum_fibers (weekday_grouped value db s e st ch)
        (fun g => dow_to_name g.dow) (fun g => g.sum_total) weekdayFrame
        (by decide)
        (fun g hg => dow_to_name_mem_frame _
          (weekday_grouped_mem value db s e st ch g hg).1))
    by_cases hE : ((weekday_grouped value db s e st ch).filter
        fun g => decide (dow_to_name g.dow = w)).isEmpty
    · rw [if_pos hE, List.isEmpty_iff.mp hE]
      simp
    · rw [if_neg hE, List.map_map]
      rfl
  have hB : ((weekday_grouped value db s e st ch).map
      fun g => g.sum_total).sum
      = ((weekday_daily value db s e st ch).map fun x => x.2.2).sum := by
    unfold weekday_grouped
    rw [((perm_sortBy _ _).map _).sum_eq, List.map_map]
    exact sum_fibers (weekday_daily value db s e st ch) (fun x => x.2.1)
      (fun x => x.2.2) (weekday_dows value db s e st ch)
      (List.nodup_dedup _)
      (fun x hx => List.mem_dedup.mpr (List.mem_map_of_mem _ hx))
  have hC : ((weekday_daily value db s e st ch).map fun x => x.2.2).sum
      = ((filteredSales db s e st ch).map value).sum := by
    unfold weekday_daily
    rw [List.map_map]
    exact sum_fibers (filteredSales db s e st ch)
      (fun r => (dateOf r.created_at, dowOf r.created_at)) value
      (((filteredSales db s e st ch).map
        fun r => (dateOf r.created_at, dowOf r.created_at)).dedup)
      (List.nodup_dedup _)
      (fun r hr => List.mem_dedup.mpr (List.mem_map_of_mem _ hr))
  rw [hA, hB, hC]

/-- C10 counterexample: in `app.py` the weekday query sums `value_paid`
while the scalar query sums `total_amount`; on a sale with
`value_paid = 5`, `total_amount = 10` the weekday `sum_total` column sums
to 5 but `total_sales` is 10. -/
theorem c10_counterexample :
    ((avg_sales_by_weekday (fun r => r.value_paid) dbV 0 USEC_PER_DAY
      [] []).map fun row => row.sum_total).sum = 5 ∧
    (q_scalar dbV 0 USEC_PER_DAY [] []).1 = 10 ∧
    ¬ ((5 : ℚ) = 10) := by
  refine ⟨?_, ?_, by norm_num⟩
  · rw [weekday_sum_total]
    simp +decide [filteredSales, saleMatches, dbV, USEC_PER_DAY,
      List.filter_cons]
  · show ((filteredSales dbV 0 USEC_PER_DAY [] []).map
      fun r => r.total_amount).sum = 10
    simp +decide [filteredSales, saleMatches, dbV, USEC_PER_DAY,
      List.filter_cons]

/-- C10 (amended): the two operations do not aggregate the same monetary
column in `app.py` — its weekday query always sums `value_paid` over the
filtered sales while its scalar query sums `total_amount`, so the weekday
`sum_total` column sums to `total_sales` whenever the two columns agree on
every sale; the `Sales.py` pair, which sums `total_amount` in both queries,
satisfies the equality unconditionally. -/
theorem c10_weekday_vs_scalar (db : DB) (s e : Nat) (st ch : List Int) :
    ((∀ r ∈ db.sales, r.value_paid = r.total_amount) →
      ((avg_sales_by_weekday (fun r => r.value_paid) db s e st ch).map
        fun row => row.sum_total).sum = (q_scalar db s e st ch).1) ∧
    ((avg_sales_by_weekday (fun r => r.total_amount) db s e st ch).map
      fun row => row.sum_total).sum = (q_scalar db s e st ch).1 ∧
    ((avg_sales_by_weekday (fun r => r.value_paid) db s e st ch).map
      fun row => row.sum_total).sum
      = ((filteredSales db s e st ch).map fun r => r.value_paid).sum := by
  refine ⟨fun h => ?_, ?_, weekday_sum_total (fun r => r.value_paid) db s e
    st ch⟩
  · rw [weekday_sum_total]
    show _ = ((filteredSales db s e st ch).map fun r => r.total_amount).sum
    exact congrArg List.sum (List.map_congr_left fun r hr =>
      h r (List.mem_filter.mp hr).1)
  · rw [weekday_sum_total]
    rfl

/-- C10 witness: the three conjuncts at the witness database, whose sales
all have `value_paid = total_amount`, with the agreement hypothesis of the
first conjunct discharged concretely. -/
theorem c10_witness :
    ((avg_sales_by_weekday (fun r => r.value_paid) dbW 0 (2 * USEC_PER_DAY)
      [] []).map fun row => row.sum_total).sum
      = (q_scalar dbW 0 (2 * USEC_PER_DAY) [] []).1 ∧
    ((avg_sales_by_weekday (fun r => r.total_amount) dbW 0 (2 * USEC_PER_DAY)
      [] []).map fun row => row.sum_total).sum
      = (q_scalar dbW 0 (2 * USEC_PER_DAY) [] []).1 ∧
    ((avg_sales_by_weekday (fun r => r.value_paid) dbW 0 (2 * USEC_PER_DAY)
      [] []).map fun row => row.sum_total).sum
      = ((filteredSales dbW 0 (2 * USEC_PER_DAY) [] []).map
        fun r => r.value_paid).sum :=
  ⟨(c10_weekday_vs_scalar dbW 0 (2 * USEC_PER_DAY) [] []).1 (by decide),
    (c10_weekday_vs_scalar dbW 0 (2 * USEC_PER_DAY) [] []).2.1,
    (c10_weekday_vs_scalar dbW 0 (2 * USEC_PER_DAY) [] []).2.2⟩

end Dashboard
